import Mathlib

/-!
Shallow embedding of the rental synchronization engine
(`src/lib/guestyToken.ts`, `src/services/listingSync.ts`,
`src/services/calendarSync.ts`, `src/routes/listings.ts` webhook router).

Modelling conventions:
* JavaScript `x ?? y` (nullish coalescing) is `jsOr`; `undefined`/`null`
  fields are `Option.none`.
* JavaScript truthiness of a nullable string (`if (!s)`) is `strTruthy`:
  both `null`/`undefined` and the empty string are falsy.
* Timestamps (`Date` values, `Date.now()`) are integers in epoch
  milliseconds.  A `Date` object is always truthy, so a nullable `Date`
  column is truthy exactly when it is non-null.
* JavaScript numbers that can never be `NaN`/`Infinity` on the modelled
  paths are rationals (`ℚ`); where `Number.isFinite` matters the type
  `JNum` distinguishes finite values from `NaN`/`±Infinity`.
* `Prisma.Decimal` values are rationals; constructing a `Decimal` from a
  JS number is exact (decimal.js reads the number's decimal digits).
* Database tables are association lists; `upsert` is find-and-replace /
  append.  Network fetches and the durable queue are parameters of the
  embedded functions (the outcome of the HTTP call is an explicit
  argument).
-/

/-- JavaScript nullish coalescing `a ?? b`: keeps `a` unless it is
`null`/`undefined`. -/
def jsOr {α : Type} : Option α → Option α → Option α
  | some x, _ => some x
  | none, b => b

/-- JavaScript truthiness of a nullable string: `null`, `undefined` and
`""` are falsy, every other string is truthy. -/
def strTruthy : Option String → Bool
  | none => false
  | some s => s ≠ ""

/-- A JavaScript number: either a finite value (modelled as a rational)
or one of the non-finite values `NaN`, `Infinity`, `-Infinity`. -/
inductive JNum where
  | fin (q : ℚ)
  | nan
  | inf
  | ninf
deriving DecidableEq, Repr

/-- `Number.isFinite` on a `JNum`. -/
def JNum.isFinite : JNum → Bool
  | .fin _ => true
  | _ => false

/-! ## Credential store (`Host` record) and Token Manager
(`src/lib/guestyToken.ts`) -/

/-- A host credential record as stored by Prisma (the fields
`getGuestyAccessToken` reads and writes). -/
structure Host where
  id : Nat
  guestyAccountId : Option String
  guestyAccessToken : Option String
  guestyRefreshToken : Option String
  guestyTokenType : Option String
  guestyScope : Option String
  /-- Expiry timestamp in epoch milliseconds (`guestyExpiresAt`), null
  when absent. -/
  guestyExpiresAt : Option Int
deriving DecidableEq, Repr

/-- The vendor token-endpoint response body (`GuestyTokenResponse`).
`access_token` is typed required but checked for truthiness at runtime;
a response missing it is modelled as the empty string. -/
structure GuestyTokenResponse where
  access_token : String
  refresh_token : Option String
  token_type : Option String
  scope : Option String
  /-- `expires_in` in seconds; `none` models both an absent field and a
  non-number value (`typeof data.expires_in === "number"` fails). -/
  expires_in : Option Int
deriving DecidableEq, Repr

/-- `TOKEN_EXPIRY_BUFFER_MS = 5 * 60 * 1000`. -/
def TOKEN_EXPIRY_BUFFER_MS : Int := 5 * 60 * 1000

/-- The guard of the early-return branch of `getGuestyAccessToken`:
`host.guestyAccessToken && host.guestyExpiresAt &&
host.guestyExpiresAt.getTime() - now > TOKEN_EXPIRY_BUFFER_MS`.
The access token is a string (truthy iff non-null and non-empty); the
expiry is a `Date` object (truthy iff non-null). -/
def tokenStillValid (host : Host) (now : Int) : Bool :=
  strTruthy host.guestyAccessToken &&
    host.guestyExpiresAt.isSome &&
    decide (host.guestyExpiresAt.getD 0 - now > TOKEN_EXPIRY_BUFFER_MS)

/-- Errors thrown by `getGuestyAccessToken`, in source order. -/
inductive TokenError where
  | notFound
  | missingRefreshToken
  | configMissing
  | vendorAuthError
  | noAccessToken
  | persistenceError
deriving DecidableEq, Repr

instance {ε α : Type} [DecidableEq ε] [DecidableEq α] : DecidableEq (Except ε α) := fun a b =>
  match a, b with
  | .error e, .error f => if h : e = f then isTrue (by rw [h]) else isFalse (by simp [h])
  | .error _, .ok _ => isFalse (by simp)
  | .ok _, .error _ => isFalse (by simp)
  | .ok x, .ok y => if h : x = y then isTrue (by rw [h]) else isFalse (by simp [h])

/-- Outcome of one `getGuestyAccessToken` call: the returned token or
thrown error, the credential record as left in the store (`none` when no
record exists), and how many store writes were performed. -/
structure TokenOutcome where
  result : Except TokenError String
  store : Option Host
  writes : Nat
deriving DecidableEq, Repr

/-- The `prisma.host.update` performed on the refresh path: new access
token; new refresh token falling back to the stored one; token type and
scope falling back to the stored ones; `guestyExpiresAt` set to
`Date.now() + expires_in * 1000` when the vendor reports a lifetime,
otherwise left at the previously stored value (`expiresAt ?? host.guestyExpiresAt`). -/
def applyRefreshWrite (host : Host) (data : GuestyTokenResponse) (nowAtWrite : Int) : Host :=
  let expiresAt : Option Int := data.expires_in.map (fun s => nowAtWrite + s * 1000)
  { host with
    guestyAccessToken := some data.access_token
    guestyRefreshToken := jsOr data.refresh_token host.guestyRefreshToken
    guestyTokenType := jsOr data.token_type host.guestyTokenType
    guestyScope := jsOr data.scope host.guestyScope
    guestyExpiresAt := jsOr expiresAt host.guestyExpiresAt }

/-- The refresh path of `getGuestyAccessToken` (everything after the
early-return check): requires a truthy stored refresh token and client
credentials, then exchanges the refresh token (`exchange` is the outcome
of the `axios.post`), checks the response carries an access token,
writes the updated record and re-checks the persisted token. -/
def refreshGuestyToken (host : Host) (nowAtWrite : Int)
    (clientId clientSecret : Option String)
    (exchange : Except Unit GuestyTokenResponse) : TokenOutcome :=
  if ¬ strTruthy host.guestyRefreshToken then
    ⟨.error .missingRefreshToken, some host, 0⟩
  else if ¬ (strTruthy clientId && strTruthy clientSecret) then
    ⟨.error .configMissing, some host, 0⟩
  else
    match exchange with
    | .error _ => ⟨.error .vendorAuthError, some host, 0⟩
    | .ok data =>
      if data.access_token = "" then
        ⟨.error .noAccessToken, some host, 0⟩
      else
        let updatedHost := applyRefreshWrite host data nowAtWrite
        if strTruthy updatedHost.guestyAccessToken then
          ⟨.ok (updatedHost.guestyAccessToken.getD ""), some updatedHost, 1⟩
        else
          ⟨.error .persistenceError, some updatedHost, 1⟩

/-- `getGuestyAccessToken(hostId)`. `store` is the credential record the
`findUnique` returns (`none`: host missing); `now` is `Date.now()` at the
expiry check, `nowAtWrite` the later `Date.now()` used to compute the new
expiry; `exchange` is the outcome of the vendor token request. -/
def getGuestyAccessToken (store : Option Host) (now nowAtWrite : Int)
    (clientId clientSecret : Option String)
    (exchange : Except Unit GuestyTokenResponse) : TokenOutcome :=
  match store with
  | none => ⟨.error .notFound, none, 0⟩
  | some host =>
    if tokenStillValid host now then
      ⟨.ok (host.guestyAccessToken.getD ""), some host, 0⟩
    else
      refreshGuestyToken host nowAtWrite clientId clientSecret exchange

/-! ## Listing Synchronizer (`src/services/listingSync.ts`) -/

/-- `DEFAULT_PAGE_SIZE = 50`. -/
def DEFAULT_PAGE_SIZE : Nat := 50

/-- The vendor address payload (`GuestyAddress`), every field optional. -/
structure GuestyAddress where
  full : Option String := none
  street : Option String := none
  line1 : Option String := none
  line2 : Option String := none
  address1 : Option String := none
  address2 : Option String := none
  apt : Option String := none
  city : Option String := none
  state : Option String := none
  province : Option String := none
  zip : Option String := none
  postalCode : Option String := none
  country : Option String := none
deriving DecidableEq, Repr

/-- The vendor geo payload (`GuestyLocation`); a field is `some` exactly
when it is present with `typeof === "number"`. -/
structure GuestyLocation where
  lat : Option ℚ := none
  lng : Option ℚ := none
  latitude : Option ℚ := none
  longitude : Option ℚ := none
deriving DecidableEq, Repr

/-- A raw vendor listing record (`GuestyListing`).  The `pictures` /
`images` fields are `unknown` in the source and only ever passed through
unchanged; they are modelled as opaque string lists. -/
structure GuestyListing where
  _id : Option String := none
  id : Option String := none
  title : Option String := none
  name : Option String := none
  description : Option String := none
  propertyType : Option String := none
  propertyTypeCategory : Option String := none
  bedrooms : Option ℚ := none
  bathrooms : Option ℚ := none
  beds : Option ℚ := none
  accommodates : Option ℚ := none
  maxGuests : Option ℚ := none
  address : Option GuestyAddress := none
  location : Option GuestyLocation := none
  geo : Option GuestyLocation := none
  amenities : Option (List String) := none
  pictures : Option (List String) := none
  images : Option (List String) := none
  basePrice : Option ℚ := none
  defaultDailyPrice : Option ℚ := none
  dailyRate : Option ℚ := none
deriving DecidableEq, Repr

/-- `extractGuestyId(listing) = listing._id ?? listing.id ?? null`. -/
def extractGuestyId (listing : GuestyListing) : Option String :=
  jsOr listing._id listing.id

/-- A `Listing` row in the entity store, with the fields the sync writes.
The auto-assigned numeric primary key is not modelled: the synchronizer
addresses listings only by `guestyId`. -/
structure ListingRec where
  guestyId : String
  hostId : Nat
  title : String
  description : Option String
  propertyType : Option String
  bedrooms : Option ℚ
  bathrooms : Option ℚ
  beds : Option ℚ
  maxGuests : Option ℚ
  addressLine1 : Option String
  addressLine2 : Option String
  city : Option String
  state : Option String
  postalCode : Option String
  country : Option String
  latitude : Option ℚ
  longitude : Option ℚ
  photos : List String
  amenities : List String
  basePrice : Option ℚ
deriving DecidableEq, Repr

/-- The `update` half of `mapGuestyListingToPrismaData`: every mapped
field except `guestyId` and the host connection. -/
structure ListingUpdate where
  title : String
  description : Option String
  propertyType : Option String
  bedrooms : Option ℚ
  bathrooms : Option ℚ
  beds : Option ℚ
  maxGuests : Option ℚ
  addressLine1 : Option String
  addressLine2 : Option String
  city : Option String
  state : Option String
  postalCode : Option String
  country : Option String
  latitude : Option ℚ
  longitude : Option ℚ
  photos : List String
  amenities : List String
  basePrice : Option ℚ
deriving DecidableEq, Repr

/-- `mapGuestyListingToPrismaData(guesty, hostId)`: field-by-field
fallback mapping, returning the `create` record and the `update` data.
`new Prisma.Decimal(basePriceNumber)` is exact on the modelled rationals.
The `calendarDays: { create: [] }` relation initializer on `create`
creates no rows and is not modelled. -/
def mapGuestyListingToPrismaData (guesty : GuestyListing) (hostId : Nat) :
    ListingRec × ListingUpdate :=
  let address := guesty.address.getD {}
  let loc := (jsOr guesty.location guesty.geo).getD {}
  let title := ((jsOr (jsOr guesty.title guesty.name) address.full).getD "Untitled listing")
  let photos := (jsOr guesty.pictures guesty.images).getD []
  let amenities := guesty.amenities.getD []
  let basePriceNumber :=
    (jsOr (jsOr guesty.basePrice guesty.defaultDailyPrice) guesty.dailyRate).getD 0
  let basePriceDecimal : ℚ := basePriceNumber
  let create : ListingRec :=
    { guestyId := (extractGuestyId guesty).getD ""
      hostId := hostId
      title := title
      description := guesty.description
      propertyType := jsOr guesty.propertyType guesty.propertyTypeCategory
      bedrooms := guesty.bedrooms
      bathrooms := guesty.bathrooms
      beds := guesty.beds
      maxGuests := jsOr guesty.maxGuests guesty.accommodates
      addressLine1 := jsOr (jsOr address.street address.line1) address.address1
      addressLine2 := jsOr (jsOr address.apt address.line2) address.address2
      city := address.city
      state := jsOr address.state address.province
      postalCode := jsOr address.zip address.postalCode
      country := address.country
      latitude := jsOr loc.lat loc.latitude
      longitude := jsOr loc.lng loc.longitude
      photos := photos
      amenities := amenities
      basePrice := some basePriceDecimal }
  let update : ListingUpdate :=
    { title := title
      description := guesty.description
      propertyType := jsOr guesty.propertyType guesty.propertyTypeCategory
      bedrooms := guesty.bedrooms
      bathrooms := guesty.bathrooms
      beds := guesty.beds
      maxGuests := jsOr guesty.maxGuests guesty.accommodates
      addressLine1 := jsOr (jsOr address.street address.line1) address.address1
      addressLine2 := jsOr (jsOr address.apt address.line2) address.address2
      city := address.city
      state := jsOr address.state address.province
      postalCode := jsOr address.zip address.postalCode
      country := address.country
      latitude := jsOr loc.lat loc.latitude
      longitude := jsOr loc.lng loc.longitude
      photos := photos
      amenities := amenities
      basePrice := some basePriceDecimal }
  (create, update)

/-- Applying Prisma `update` data to an existing `Listing` row: every
field carried by the update is overwritten, `guestyId` and `hostId` are
untouched. -/
def applyListingUpdate (rec : ListingRec) (u : ListingUpdate) : ListingRec :=
  { rec with
    title := u.title
    description := u.description
    propertyType := u.propertyType
    bedrooms := u.bedrooms
    bathrooms := u.bathrooms
    beds := u.beds
    maxGuests := u.maxGuests
    addressLine1 := u.addressLine1
    addressLine2 := u.addressLine2
    city := u.city
    state := u.state
    postalCode := u.postalCode
    country := u.country
    latitude := u.latitude
    longitude := u.longitude
    photos := u.photos
    amenities := u.amenities
    basePrice := u.basePrice }

/-- `prisma.listing.upsert({ where: { guestyId: key }, create, update })`
over the listing table: the first row whose `guestyId` equals the key is
updated in place; when none exists the `create` record is appended.
Returns the written row and the new table. -/
def upsertListing : List ListingRec → String → ListingRec → ListingUpdate →
    ListingRec × List ListingRec
  | [], _, create, _ => (create, [create])
  | r :: rest, key, create, update =>
    if r.guestyId = key then
      let r' := applyListingUpdate r update
      (r', r' :: rest)
    else
      let tail := upsertListing rest key create update
      (tail.1, r :: tail.2)

/-- Number of rows in a listing table carrying a given `guestyId`. -/
def keyCount (db : List ListingRec) (key : String) : Nat :=
  (db.filter (fun r => r.guestyId = key)).length

/-- The upsert key chosen by `syncListingByGuestyId`:
`extractGuestyId(data) ?? guestyListingId` — the identifier reported by
the vendor payload, falling back to the identifier used in the request
only when the payload reports none. -/
def syncOneKey (data : GuestyListing) (guestyListingId : String) : String :=
  (extractGuestyId data).getD guestyListingId

/-- `syncListingByGuestyId(hostId, guestyListingId)` acting on a listing
table.  Token acquisition and the single-listing HTTP fetch are
abstracted: `data` is the vendor payload the fetch returned (a fetch or
token failure aborts the call before any store access, leaving the table
unchanged).  Mirrors: choose the key, map, force `create.guestyId` to the
key, upsert. -/
def syncListingByGuestyId (db : List ListingRec) (hostId : Nat)
    (guestyListingId : String) (data : GuestyListing) :
    ListingRec × List ListingRec :=
  let guestyId := syncOneKey data guestyListingId
  let cu := mapGuestyListingToPrismaData data hostId
  let create := { cu.1 with guestyId := guestyId }
  upsertListing db guestyId create cu.2

/-- The per-page record loop of `syncAllListingsForHost`: for each raw
record, skip it when `extractGuestyId` is not truthy (`if (!guestyId)
continue`), otherwise map and upsert keyed by the extracted identifier.
Returns the listings pushed onto `syncedListings` for this page and the
resulting table. -/
def processPage (hostId : Nat) : List GuestyListing → List ListingRec →
    List ListingRec × List ListingRec
  | [], db => ([], db)
  | raw :: rest, db =>
    if strTruthy (extractGuestyId raw) then
      let cu := mapGuestyListingToPrismaData raw hostId
      let up := upsertListing db ((extractGuestyId raw).getD "") cu.1 cu.2
      let tail := processPage hostId rest up.2
      (up.1 :: tail.1, tail.2)
    else
      processPage hostId rest db

/-- A page response from the vendor listing collection
(`GuestyListResponse`). -/
structure GuestyListResponse where
  results : Option (List GuestyListing) := none
  data : Option (List GuestyListing) := none
  page : Option Nat := none
  pages : Option Nat := none
  limit : Option Nat := none
deriving Repr

/-- JavaScript truthiness of the optional numeric `pages` field:
`0` (and `null`/`undefined`) are falsy. -/
def pagesTruthy : Option Nat → Bool
  | none => false
  | some p => p ≠ 0

/-- The `while (true)` pagination loop of `syncAllListingsForHost`,
with explicit fuel (the source loop can run forever against a vendor
that keeps returning full pages; `none` models non-termination within
the given fuel).  `fetch page` is the vendor response for that page.
Returns the accumulated synced listings in vendor page order, the final
table, and the number of vendor page requests performed. -/
def syncAllLoop (fetch : Nat → GuestyListResponse) (hostId : Nat) (limit : Nat) :
    Nat → Nat → List ListingRec →
    Option (List ListingRec × List ListingRec × Nat)
  | 0, _, _ => none
  | fuel + 1, page, db =>
    let resp := fetch page
    let rawListings := (jsOr resp.results resp.data).getD []
    if rawListings.length = 0 then
      some ([], db, 1)
    else
      let step := processPage hostId rawListings db
      if pagesTruthy resp.pages && decide (page ≥ resp.pages.getD 0) then
        some (step.1, step.2, 1)
      else if !pagesTruthy resp.pages && decide (rawListings.length < limit) then
        some (step.1, step.2, 1)
      else
        match syncAllLoop fetch hostId limit fuel (page + 1) step.2 with
        | none => none
        | some rest => some (step.1 ++ rest.1, rest.2.1, rest.2.2 + 1)

/-- `syncAllListingsForHost(hostId)` acting on a listing table: pages
through the vendor collection starting at page 1 with
`limit = DEFAULT_PAGE_SIZE`.  Token acquisition is abstracted (a token
failure aborts before any paging). -/
def syncAllListingsForHost (fetch : Nat → GuestyListResponse) (hostId : Nat)
    (fuel : Nat) (db : List ListingRec) :
    Option (List ListingRec × List ListingRec × Nat) :=
  syncAllLoop fetch hostId DEFAULT_PAGE_SIZE fuel 1 db

/-! ## Calendar Synchronizer (`src/services/calendarSync.ts`) -/

/-- A raw vendor availability day (`GuestyAvailabilityDay`).  The price
fields are JS numbers that may be non-finite in a malformed payload;
the minimum-stay fields are modelled as rationals. -/
structure GuestyAvailabilityDay where
  date : Option String := none
  available : Option Bool := none
  price : Option JNum := none
  nightlyPrice : Option JNum := none
  basePrice : Option JNum := none
  defaultDailyPrice : Option JNum := none
  minimumStay : Option ℚ := none
  minNights : Option ℚ := none
  minStay : Option ℚ := none
deriving DecidableEq, Repr

/-- The vendor availability response (`GuestyAvailabilityResponse`). -/
structure GuestyAvailabilityResponse where
  results : Option (List GuestyAvailabilityDay) := none
  days : Option (List GuestyAvailabilityDay) := none
  data : Option (List GuestyAvailabilityDay) := none
deriving Repr

/-- A `CalendarDay` row: composite key `(listingId, date)` (the date a
UTC-day value in epoch milliseconds), availability flag, exact-decimal
nightly price, minimum stay. -/
structure CalendarDayRec where
  listingId : Nat
  date : Int
  available : Bool
  price : ℚ
  minStay : ℚ
deriving DecidableEq, Repr

/-- The nightly-price fallback chain of `syncCalendarForListing`:
`raw.price ?? raw.nightlyPrice ?? raw.basePrice ?? raw.defaultDailyPrice
?? Number(listing.basePrice ?? 0)`.  `Number` applied to a
`Prisma.Decimal` is exact on the modelled rationals (the stored decimals
originate from JS numbers), so the final fallback is the listing's base
price, defaulting to `0` when that column is null. -/
def resolveDayPrice (raw : GuestyAvailabilityDay) (listingBasePrice : Option ℚ) : JNum :=
  (jsOr raw.price (jsOr raw.nightlyPrice (jsOr raw.basePrice raw.defaultDailyPrice))).getD
    (JNum.fin (listingBasePrice.getD 0))

/-- `new Prisma.Decimal(Number.isFinite(basePriceNumber) ?
basePriceNumber : 0)`: the stored exact-decimal day price. -/
def dayPriceDecimal (raw : GuestyAvailabilityDay) (listingBasePrice : Option ℚ) : ℚ :=
  match resolveDayPrice raw listingBasePrice with
  | .fin q => q
  | _ => 0

/-- The body of the per-day loop of `syncCalendarForListing`: a day with
a falsy `date` is skipped (`if (!raw.date) continue`); otherwise the
date is normalized to a UTC day boundary (`parseDay` models
`startOfDayUtc(new Date(s))`), availability defaults to `true`, the
price is resolved through the fallback chain with non-finite values
replaced by `0`, and the minimum stay defaults to `1`. -/
def processAvailabilityDay (listingId : Nat) (listingBasePrice : Option ℚ)
    (parseDay : String → Int) (raw : GuestyAvailabilityDay) :
    Option CalendarDayRec :=
  match raw.date with
  | none => none
  | some d =>
    if d = "" then none
    else
      some
        { listingId := listingId
          date := parseDay d
          available := raw.available.getD true
          price := dayPriceDecimal raw listingBasePrice
          minStay := (jsOr raw.minimumStay (jsOr raw.minNights raw.minStay)).getD 1 }

/-- `prisma.calendarDay.upsert` keyed by the `(listingId, date)`
composite: the first row with the same composite key gets `available`,
`price` and `minStay` overwritten; otherwise the new row is appended. -/
def upsertCalendarDay : List CalendarDayRec → CalendarDayRec →
    CalendarDayRec × List CalendarDayRec
  | [], day => (day, [day])
  | r :: rest, day =>
    if r.listingId = day.listingId && r.date = day.date then
      let r' := { r with
        available := day.available
        price := day.price
        minStay := day.minStay }
      (r', r' :: rest)
    else
      let tail := upsertCalendarDay rest day
      (tail.1, r :: tail.2)

/-- The per-day loop of `syncCalendarForListing` over the raw days, in
vendor response order, threading the calendar table through the upserts
and accumulating `syncedDays`. -/
def syncCalendarDays (listingId : Nat) (listingBasePrice : Option ℚ)
    (parseDay : String → Int) :
    List GuestyAvailabilityDay → List CalendarDayRec →
    List CalendarDayRec × List CalendarDayRec
  | [], db => ([], db)
  | raw :: rest, db =>
    match processAvailabilityDay listingId listingBasePrice parseDay raw with
    | none => syncCalendarDays listingId listingBasePrice parseDay rest db
    | some day =>
      let up := upsertCalendarDay db day
      let tail := syncCalendarDays listingId listingBasePrice parseDay rest up.2
      (up.1 :: tail.1, tail.2)

/-- `syncCalendarForListing(listingId)` acting on a calendar table.
The listing load with its `NotFound`/`NotLinked` checks, token
acquisition, the 6-month window computation and the availability HTTP
request are abstracted: `listingBasePrice` is the loaded listing's
`basePrice` column and `resp` the availability response
(`data.results ?? data.days ?? data.data ?? []`). -/
def syncCalendarForListing (listingId : Nat) (listingBasePrice : Option ℚ)
    (parseDay : String → Int) (resp : GuestyAvailabilityResponse)
    (db : List CalendarDayRec) :
    List CalendarDayRec × List CalendarDayRec :=
  syncCalendarDays listingId listingBasePrice parseDay
    ((jsOr resp.results (jsOr resp.days resp.data)).getD []) db

/-! ## Inbound webhook router (`src/routes/listings.ts`, `POST /guesty`) -/

/-- A nested listing reference in a webhook body. -/
structure WebhookListing where
  _id : Option String := none
  id : Option String := none
deriving DecidableEq, Repr

/-- A nested reservation reference in a webhook body. -/
structure WebhookReservation where
  listing : Option WebhookListing := none
  listingId : Option String := none
  listing_id : Option String := none
deriving DecidableEq, Repr

/-- The parsed webhook body (`GuestyWebhookBody`), restricted to the
fields the handler reads.  A body that failed JSON parsing is the value
with every field `none` (`body = {}`). -/
structure GuestyWebhookBody where
  event : Option String := none
  type : Option String := none
  accountId : Option String := none
  account_id : Option String := none
  integrationId : Option String := none
  integration_id : Option String := none
  account : Option String := none
  accountID : Option String := none
  listing : Option WebhookListing := none
  listingId : Option String := none
  listing_id : Option String := none
  reservation : Option WebhookReservation := none
  _id : Option String := none
  id : Option String := none
deriving DecidableEq, Repr

/-- `LISTING_EVENTS`. -/
def LISTING_EVENTS : List String := ["listing.created", "listing.updated"]

/-- `RESERVATION_EVENTS`. -/
def RESERVATION_EVENTS : List String :=
  ["reservation.created", "reservation.updated", "reservation.cancelled"]

/-- `resolveHostIdFromPayload(body)` over the host table: coalesce the
account-identifier field variants, return `null` when the result is
falsy, otherwise look up the host with that unique `guestyAccountId`
and return `host?.id ?? null`. -/
def resolveHostIdFromPayload (hosts : List Host) (body : GuestyWebhookBody) :
    Option Nat :=
  let accountId :=
    jsOr body.accountId (jsOr body.account_id (jsOr body.integrationId
      (jsOr body.integration_id (jsOr body.account body.accountID))))
  if ¬ strTruthy accountId then none
  else
    match hosts.find? (fun h => h.guestyAccountId = accountId) with
    | some h => some h.id
    | none => none

/-- `extractGuestyListingId(body)`: the listing-reference fallback chain
(`body.listing?._id ?? body.listing?.id ?? body.listingId ??
body.listing_id`, then the same under `body.reservation`, then the
top-level `_id`/`id`). -/
def extractGuestyListingId (body : GuestyWebhookBody) : Option String :=
  let fromListing :=
    jsOr (body.listing.bind (fun l => l._id))
      (jsOr (body.listing.bind (fun l => l.id))
        (jsOr body.listingId body.listing_id))
  let fromReservation :=
    jsOr (body.reservation.bind (fun r => r.listing.bind (fun l => l._id)))
      (jsOr (body.reservation.bind (fun r => r.listing.bind (fun l => l.id)))
        (jsOr (body.reservation.bind (fun r => r.listingId))
          (body.reservation.bind (fun r => r.listing_id))))
  let topLevel := jsOr body._id body.id
  jsOr fromListing (jsOr fromReservation topLevel)

/-- A job enqueued on the sync queue by the webhook handler. -/
inductive SyncJob where
  | syncSingleListing (hostId : Nat) (guestyListingId : String)
  | syncCalendar (listingId : Nat)
deriving DecidableEq, Repr

/-- `POST /guesty`: the webhook handler.  `hosts` is the host table,
`listingTable` the `(guestyId, id)` projection of the listing table used
by the reservation branch's `findUnique`.  Returns the HTTP status and
the enqueued jobs.  Every failure inside the `try` block is caught and
logged, and `res.status(200)` is issued on every control path, so the
status is unconditionally 200; the modelled collaborators are total, so
the catch arm carries no behaviour beyond that. -/
def handleGuestyWebhook (hosts : List Host) (listingTable : List (String × Nat))
    (body : GuestyWebhookBody) : Nat × List SyncJob :=
  let eventType := (jsOr body.event body.type).getD ""
  let jobs :=
    if LISTING_EVENTS.contains eventType then
      let hostId := resolveHostIdFromPayload hosts body
      let guestyListingId := extractGuestyListingId body
      if hostId.isSome && strTruthy guestyListingId then
        [SyncJob.syncSingleListing (hostId.getD 0) (guestyListingId.getD "")]
      else []
    else if RESERVATION_EVENTS.contains eventType then
      let guestyListingId := extractGuestyListingId body
      if strTruthy guestyListingId then
        match listingTable.find? (fun p => p.1 = guestyListingId.getD "") with
        | some p => [SyncJob.syncCalendar p.2]
        | none => []
      else []
    else []
  (200, jobs)

/-! ## Theorems: Token Manager -/

@[simp] theorem strTruthy_none : strTruthy none = false := rfl

@[simp] theorem strTruthy_some (s : String) : strTruthy (some s) = !decide (s = "") := by
  simp [strTruthy]

/-- Classification of the refresh path: it either throws one of the
pre-write errors leaving the record untouched with no write, or it
performs exactly one write persisting the exchanged token. -/
theorem refreshGuestyToken_shape (host : Host) (nowAtWrite : Int)
    (ci cs : Option String) (ex : Except Unit GuestyTokenResponse) :
    (∃ e, refreshGuestyToken host nowAtWrite ci cs ex = ⟨.error e, some host, 0⟩) ∨
    (∃ data, ex = .ok data ∧ data.access_token ≠ "" ∧
      refreshGuestyToken host nowAtWrite ci cs ex =
        ⟨.ok data.access_token, some (applyRefreshWrite host data nowAtWrite), 1⟩) := by
  by_cases h1 : strTruthy host.guestyRefreshToken
  · by_cases h2 : strTruthy ci && strTruthy cs
    · cases ex with
      | error e =>
        exact Or.inl ⟨.vendorAuthError, by simp [refreshGuestyToken, h1, h2]⟩
      | ok data =>
        by_cases h3 : data.access_token = ""
        · exact Or.inl ⟨.noAccessToken, by simp [refreshGuestyToken, h1, h2, h3]⟩
        · refine Or.inr ⟨data, rfl, h3, ?_⟩
          simp [refreshGuestyToken, h1, h2, h3, applyRefreshWrite]
    · exact Or.inl ⟨.configMissing, by simp [refreshGuestyToken, h1, h2]⟩
  · exact Or.inl ⟨.missingRefreshToken, by simp [refreshGuestyToken, h1]⟩

@[simp] theorem jsOr_some {α : Type} (x : α) (b : Option α) : jsOr (some x) b = some x := rfl

@[simp] theorem jsOr_none {α : Type} (b : Option α) : jsOr none b = b := rfl

/-- Characterization of the early-return guard for a record with a
non-empty token and a non-null expiry. -/
theorem tokenStillValid_iff (host : Host) (now : Int) (tok : String) (expiry : Int)
    (htok : host.guestyAccessToken = some tok) (hne : tok ≠ "")
    (hexp : host.guestyExpiresAt = some expiry) :
    tokenStillValid host now = true ↔ expiry - now > TOKEN_EXPIRY_BUFFER_MS := by
  simp [tokenStillValid, htok, hexp, hne]

/-- `getGuestyAccessToken` with a still-valid token: early return. -/
theorem getGuestyAccessToken_valid (host : Host) (now nowAtWrite : Int)
    (ci cs : Option String) (ex : Except Unit GuestyTokenResponse)
    (hts : tokenStillValid host now = true) :
    getGuestyAccessToken (some host) now nowAtWrite ci cs ex =
      ⟨.ok (host.guestyAccessToken.getD ""), some host, 0⟩ := by
  simp [getGuestyAccessToken, hts]

/-- `getGuestyAccessToken` with a stale/absent token: refresh path. -/
theorem getGuestyAccessToken_refresh (host : Host) (now nowAtWrite : Int)
    (ci cs : Option String) (ex : Except Unit GuestyTokenResponse)
    (hts : tokenStillValid host now = false) :
    getGuestyAccessToken (some host) now nowAtWrite ci cs ex =
      refreshGuestyToken host nowAtWrite ci cs ex := by
  simp [getGuestyAccessToken, hts]

/-- C3 (counterexample): a credential record whose access token is
non-null but empty and whose expiry lies 6 minutes in the future — more
than the 5-minute buffer — is nevertheless refreshed: the call performs
a store write and does not return the stored token, refuting the claim
as stated for non-null (rather than non-empty) tokens. -/
theorem getGuestyAccessToken_emptyToken_refreshes :
    (Host.mk 1 none (some "") (some "r") none none (some 360000)).guestyAccessToken.isSome = true
    ∧ ((360000 : Int) - 0 > TOKEN_EXPIRY_BUFFER_MS)
    ∧ (getGuestyAccessToken (some (Host.mk 1 none (some "") (some "r") none none (some 360000)))
        0 0 (some "ci") (some "cs") (.ok ⟨"fresh", none, none, none, some 3600⟩)).writes = 1
    ∧ (getGuestyAccessToken (some (Host.mk 1 none (some "") (some "r") none none (some 360000)))
        0 0 (some "ci") (some "cs") (.ok ⟨"fresh", none, none, none, some 3600⟩)).result ≠
        .ok "" := by decide

/-- C3 (amended): for a credential record holding a non-empty access
token and a non-null expiry timestamp, `getGuestyAccessToken` returns
the stored token unchanged with no store write exactly when the expiry
is strictly more than the 5-minute buffer after the current time; at any
remaining lifetime not exceeding the buffer (e.g. 4 minutes 59 seconds)
it enters the refresh path instead. -/
theorem getGuestyAccessToken_buffer (host : Host) (now nowAtWrite : Int)
    (ci cs : Option String) (ex : Except Unit GuestyTokenResponse)
    (tok : String) (expiry : Int)
    (htok : host.guestyAccessToken = some tok) (hne : tok ≠ "")
    (hexp : host.guestyExpiresAt = some expiry) :
    (getGuestyAccessToken (some host) now nowAtWrite ci cs ex =
        ⟨.ok tok, some host, 0⟩ ↔ expiry - now > TOKEN_EXPIRY_BUFFER_MS)
    ∧ (expiry - now ≤ TOKEN_EXPIRY_BUFFER_MS →
        getGuestyAccessToken (some host) now nowAtWrite ci cs ex =
          refreshGuestyToken host nowAtWrite ci cs ex) := by
  have hv := tokenStillValid_iff host now tok expiry htok hne hexp
  constructor
  · constructor
    · intro heq
      by_contra hgt
      have hts : tokenStillValid host now = false := by
        cases h : tokenStillValid host now
        · rfl
        · exact absurd (hv.mp h) hgt
      rw [getGuestyAccessToken_refresh host now nowAtWrite ci cs ex hts] at heq
      rcases refreshGuestyToken_shape host nowAtWrite ci cs ex with ⟨e, hsh⟩ | ⟨d, _, _, hsh⟩
      · rw [hsh] at heq
        simp at heq
      · rw [hsh] at heq
        simp at heq
    · intro hgt
      rw [getGuestyAccessToken_valid host now nowAtWrite ci cs ex (hv.mpr hgt), htok]
      rfl
  · intro hle
    have hts : tokenStillValid host now = false := by
      cases h : tokenStillValid host now
      · rfl
      · exact absurd (hv.mp h) (not_lt.mpr hle)
    exact getGuestyAccessToken_refresh host now nowAtWrite ci cs ex hts

/-- C3 (witness): a record with token `"tok"` expiring at 400 000 ms is
returned unchanged at `now = 0` with no write. -/
theorem getGuestyAccessToken_buffer_witness :
    getGuestyAccessToken (some (Host.mk 1 none (some "tok") (some "r") none none (some 400000)))
      0 0 none none (.error ()) =
      ⟨.ok "tok", some (Host.mk 1 none (some "tok") (some "r") none none (some 400000)), 0⟩ :=
  (getGuestyAccessToken_buffer (Host.mk 1 none (some "tok") (some "r") none none (some 400000))
      0 0 none none (.error ()) "tok" 400000 rfl (by decide) rfl).1.mpr (by decide)

/-- C4 (counterexample): a record with no stored token and no stored
expiry is refreshed with a vendor response that omits `expires_in`; the
resulting write persists a non-null access token together with a null
expiry timestamp, breaking the claimed invariant. -/
theorem tokenRefresh_invariant_counterexample :
    (getGuestyAccessToken (some (Host.mk 1 none none (some "r") none none none))
        0 0 (some "ci") (some "cs") (.ok ⟨"a", none, none, none, none⟩)).writes = 1
    ∧ (getGuestyAccessToken (some (Host.mk 1 none none (some "r") none none none))
        0 0 (some "ci") (some "cs") (.ok ⟨"a", none, none, none, none⟩)).store =
      some (Host.mk 1 none (some "a") (some "r") none none none)
    ∧ (Host.mk 1 none (some "a") (some "r") none none none).guestyAccessToken.isSome = true
    ∧ (Host.mk 1 none (some "a") (some "r") none none none).guestyExpiresAt = none := by
  decide

/-- C4 (amended): every write the Token Manager performs persists a
non-null access token; when the vendor reports a lifetime `L` the
persisted expiry is exactly the write-time clock plus `L` seconds, and
the persisted expiry is non-null provided the vendor reports a lifetime
or the pre-write record already carried an expiry (a response omitting
`expires_in` against a record with a null expiry leaves the expiry
null). -/
theorem tokenRefresh_write_expiry (store : Option Host) (now nowAtWrite : Int)
    (ci cs : Option String) (ex : Except Unit GuestyTokenResponse)
    (hw : (getGuestyAccessToken store now nowAtWrite ci cs ex).writes ≠ 0) :
    ∃ host data, store = some host ∧ ex = .ok data ∧
      (getGuestyAccessToken store now nowAtWrite ci cs ex).store =
        some (applyRefreshWrite host data nowAtWrite) ∧
      (applyRefreshWrite host data nowAtWrite).guestyAccessToken = some data.access_token ∧
      ((host.guestyExpiresAt.isSome = true ∨ data.expires_in.isSome = true) →
        (applyRefreshWrite host data nowAtWrite).guestyExpiresAt.isSome = true) ∧
      (∀ L, data.expires_in = some L →
        (applyRefreshWrite host data nowAtWrite).guestyExpiresAt =
          some (nowAtWrite + L * 1000)) := by
  cases store with
  | none => simp [getGuestyAccessToken] at hw
  | some host =>
    cases hts : tokenStillValid host now with
    | true =>
      rw [getGuestyAccessToken_valid host now nowAtWrite ci cs ex hts] at hw
      simp at hw
    | false =>
      rw [getGuestyAccessToken_refresh host now nowAtWrite ci cs ex hts] at hw ⊢
      rcases refreshGuestyToken_shape host nowAtWrite ci cs ex with ⟨e, hsh⟩ | ⟨d, hex, hne, hsh⟩
      · rw [hsh] at hw
        simp at hw
      · refine ⟨host, d, rfl, hex, by rw [hsh], by simp [applyRefreshWrite], ?_, ?_⟩
        · intro hor
          cases hexp : d.expires_in with
          | some L => simp [applyRefreshWrite, hexp]
          | none =>
            rcases hor with hold | hnew
            · simpa [applyRefreshWrite, hexp] using hold
            · rw [hexp] at hnew
              simp at hnew
        · intro L hL
          simp [applyRefreshWrite, hL]

/-- C4 (witness): a refresh at write-time 7 000 ms with reported
lifetime 3 600 s persists expiry 3 607 000 ms and a non-null token. -/
theorem tokenRefresh_write_expiry_witness :
    ∃ host data,
      some (Host.mk 1 none none (some "r") none none none) = some host ∧
      (Except.ok ⟨"a", none, none, none, some 3600⟩ :
          Except Unit GuestyTokenResponse) = .ok data ∧
      (getGuestyAccessToken (some (Host.mk 1 none none (some "r") none none none))
          0 7000 (some "ci") (some "cs")
          (.ok ⟨"a", none, none, none, some 3600⟩)).store =
        some (applyRefreshWrite host data 7000) ∧
      (applyRefreshWrite host data 7000).guestyAccessToken = some data.access_token ∧
      ((host.guestyExpiresAt.isSome = true ∨ data.expires_in.isSome = true) →
        (applyRefreshWrite host data 7000).guestyExpiresAt.isSome = true) ∧
      (∀ L, data.expires_in = some L →
        (applyRefreshWrite host data 7000).guestyExpiresAt = some (7000 + L * 1000)) :=
  tokenRefresh_write_expiry (some (Host.mk 1 none none (some "r") none none none))
    0 7000 (some "ci") (some "cs") (.ok ⟨"a", none, none, none, some 3600⟩) (by decide)

/-- C9 (confirmed): one `getGuestyAccessToken` call performs at most one
credential-store write; a write happens only on the refresh path (stale
guard false, exchange succeeded with a usable token); the early-return
path and every failure other than the post-write persistence check leave
the credential record exactly as it was, with zero writes. -/
theorem getGuestyAccessToken_write_frame (store : Option Host) (now nowAtWrite : Int)
    (ci cs : Option String) (ex : Except Unit GuestyTokenResponse) :
    (getGuestyAccessToken store now nowAtWrite ci cs ex).writes ≤ 1
    ∧ ((getGuestyAccessToken store now nowAtWrite ci cs ex).writes ≠ 0 →
        ∃ host data, store = some host ∧ tokenStillValid host now = false ∧
          ex = .ok data ∧ data.access_token ≠ "" ∧
          (getGuestyAccessToken store now nowAtWrite ci cs ex).store =
            some (applyRefreshWrite host data nowAtWrite))
    ∧ (∀ host, store = some host → tokenStillValid host now = true →
        getGuestyAccessToken store now nowAtWrite ci cs ex =
          ⟨.ok (host.guestyAccessToken.getD ""), store, 0⟩)
    ∧ (∀ e, (getGuestyAccessToken store now nowAtWrite ci cs ex).result = .error e →
        e ≠ TokenError.persistenceError →
        (getGuestyAccessToken store now nowAtWrite ci cs ex).store = store ∧
        (getGuestyAccessToken store now nowAtWrite ci cs ex).writes = 0) := by
  cases store with
  | none =>
    refine ⟨by simp [getGuestyAccessToken], ?_, ?_, ?_⟩
    · simp [getGuestyAccessToken]
    · intro host h
      exact absurd h (by simp)
    · intro e _ _
      simp [getGuestyAccessToken]
  | some host =>
    cases hts : tokenStillValid host now with
    | true =>
      rw [getGuestyAccessToken_valid host now nowAtWrite ci cs ex hts]
      refine ⟨by simp, by simp, ?_, by simp⟩
      intro h heq _
      cases heq
      rfl
    | false =>
      rw [getGuestyAccessToken_refresh host now nowAtWrite ci cs ex hts]
      rcases refreshGuestyToken_shape host nowAtWrite ci cs ex with ⟨e, hsh⟩ | ⟨d, hex, hne, hsh⟩
      · rw [hsh]
        refine ⟨by simp, by simp, ?_, by simp⟩
        intro h heq hv
        cases heq
        rw [hv] at hts
        cases hts
      · rw [hsh]
        refine ⟨by simp, ?_, ?_, by simp⟩
        · intro _
          exact ⟨host, d, rfl, hts, hex, hne, rfl⟩
        · intro h heq hv
          cases heq
          rw [hv] at hts
          cases hts

/-- C9 (witness): at a concrete early-return input the call leaves the
record untouched with zero writes. -/
theorem getGuestyAccessToken_write_frame_witness :
    getGuestyAccessToken (some (Host.mk 2 none (some "t") none none none (some 900000)))
        0 0 none none (.error ()) =
      ⟨.ok "t", some (Host.mk 2 none (some "t") none none none (some 900000)), 0⟩ :=
  ((getGuestyAccessToken_write_frame
      (some (Host.mk 2 none (some "t") none none none (some 900000)))
      0 0 none none (.error ())).2.2.1
    (Host.mk 2 none (some "t") none none none (some 900000)) rfl (by decide))

/-! ## Theorems: Listing Synchronizer -/

@[simp] theorem applyListingUpdate_guestyId (r : ListingRec) (u : ListingUpdate) :
    (applyListingUpdate r u).guestyId = r.guestyId := rfl

@[simp] theorem applyListingUpdate_hostId (r : ListingRec) (u : ListingUpdate) :
    (applyListingUpdate r u).hostId = r.hostId := rfl

/-- Applying the same update twice is the same as applying it once. -/
theorem applyListingUpdate_idem (r : ListingRec) (u : ListingUpdate) :
    applyListingUpdate (applyListingUpdate r u) u = applyListingUpdate r u := rfl

/-- The `create` record produced by the mapping (with its key forced) is
a fixed point of the matching `update`: both halves carry the same
mapped field values. -/
theorem applyListingUpdate_map (g : GuestyListing) (hostId : Nat) (key : String) :
    applyListingUpdate { (mapGuestyListingToPrismaData g hostId).1 with guestyId := key }
      (mapGuestyListingToPrismaData g hostId).2 =
    { (mapGuestyListingToPrismaData g hostId).1 with guestyId := key } := rfl

theorem keyCount_nil (key : String) : keyCount [] key = 0 := rfl

theorem keyCount_cons (r : ListingRec) (db : List ListingRec) (key : String) :
    keyCount (r :: db) key = (if r.guestyId = key then 1 else 0) + keyCount db key := by
  by_cases h : r.guestyId = key
  · simp [keyCount, List.filter_cons, h]
    omega
  · simp [keyCount, List.filter_cons, h]

/-- Upserting twice with the same key, a `create` keyed by it that the
`update` fixes, into a table holding at most one row for the key:
afterwards exactly one row carries the key, and the second upsert
changes nothing. -/
theorem upsertListing_idem (key : String) (c : ListingRec) (u : ListingUpdate)
    (hc : c.guestyId = key) (hcu : applyListingUpdate c u = c) :
    ∀ db : List ListingRec, keyCount db key ≤ 1 →
      keyCount (upsertListing db key c u).2 key = 1 ∧
      (upsertListing (upsertListing db key c u).2 key c u).1 =
        (upsertListing db key c u).1 ∧
      (upsertListing (upsertListing db key c u).2 key c u).2 =
        (upsertListing db key c u).2 := by
  intro db
  induction db with
  | nil =>
    intro _
    refine ⟨by simp [upsertListing, keyCount_cons, keyCount_nil, hc], ?_, ?_⟩
    · simp [upsertListing, hc, hcu]
    · simp [upsertListing, hc, hcu]
  | cons r rest ih =>
    intro hle
    by_cases h : r.guestyId = key
    · have hrest : keyCount rest key = 0 := by
        have := keyCount_cons r rest key
        rw [if_pos h] at this
        omega
      have hcount : keyCount (applyListingUpdate r u :: rest) key = 1 := by
        rw [keyCount_cons, applyListingUpdate_guestyId, if_pos h, hrest]
      refine ⟨?_, ?_, ?_⟩
      · simpa [upsertListing, h] using hcount
      · simp [upsertListing, h, applyListingUpdate_idem]
      · simp [upsertListing, h, applyListingUpdate_idem]
    · have hle' : keyCount rest key ≤ 1 := by
        have := keyCount_cons r rest key
        rw [if_neg h] at this
        omega
      rcases ih hle' with ⟨ih1, ih2, ih3⟩
      refine ⟨?_, ?_, ?_⟩
      · simpa [upsertListing, h, keyCount_cons] using ih1
      · simp [upsertListing, h, ih2, ih3]
      · simp [upsertListing, h, ih2, ih3]

/-- C1 (confirmed): syncing one vendor listing twice with the identical
payload, into a table holding at most one row for the chosen key (the
store enforces uniqueness), leaves exactly one `Listing` row for that
key, and the second call returns the same record and the same table as
the first — the second upsert is a no-op on content. -/
theorem syncListingByGuestyId_idempotent (db : List ListingRec) (hostId : Nat)
    (vid : String) (data : GuestyListing)
    (huniq : keyCount db (syncOneKey data vid) ≤ 1) :
    keyCount (syncListingByGuestyId db hostId vid data).2 (syncOneKey data vid) = 1
    ∧ (syncListingByGuestyId (syncListingByGuestyId db hostId vid data).2 hostId vid data).1 =
        (syncListingByGuestyId db hostId vid data).1
    ∧ (syncListingByGuestyId (syncListingByGuestyId db hostId vid data).2 hostId vid data).2 =
        (syncListingByGuestyId db hostId vid data).2 :=
  upsertListing_idem (syncOneKey data vid)
    { (mapGuestyListingToPrismaData data hostId).1 with guestyId := syncOneKey data vid }
    (mapGuestyListingToPrismaData data hostId).2
    rfl (applyListingUpdate_map data hostId (syncOneKey data vid)) db huniq

/-- C1 (witness): concrete double sync of payload `{_id: "abc"}` into an
empty table. -/
theorem syncListingByGuestyId_idempotent_witness :
    keyCount (syncListingByGuestyId [] 1 "abc" { _id := some "abc" }).2
        (syncOneKey { _id := some "abc" } "abc") = 1
    ∧ (syncListingByGuestyId (syncListingByGuestyId [] 1 "abc" { _id := some "abc" }).2
          1 "abc" { _id := some "abc" }).1 =
        (syncListingByGuestyId [] 1 "abc" { _id := some "abc" }).1
    ∧ (syncListingByGuestyId (syncListingByGuestyId [] 1 "abc" { _id := some "abc" }).2
          1 "abc" { _id := some "abc" }).2 =
        (syncListingByGuestyId [] 1 "abc" { _id := some "abc" }).2 :=
  syncListingByGuestyId_idempotent [] 1 "abc" { _id := some "abc" } (by decide)

/-- The row an upsert returns carries the upsert key (when the `create`
record does). -/
theorem upsertListing_result_key (db : List ListingRec) (key : String)
    (c : ListingRec) (u : ListingUpdate) (hc : c.guestyId = key) :
    (upsertListing db key c u).1.guestyId = key := by
  induction db with
  | nil => simpa [upsertListing] using hc
  | cons r rest ih =>
    by_cases h : r.guestyId = key
    · simp [upsertListing, h]
    · simpa [upsertListing, h] using ih

/-- The row an upsert returns is present in the resulting table. -/
theorem upsertListing_result_mem (db : List ListingRec) (key : String)
    (c : ListingRec) (u : ListingUpdate) :
    (upsertListing db key c u).1 ∈ (upsertListing db key c u).2 := by
  induction db with
  | nil => simp [upsertListing]
  | cons r rest ih =>
    by_cases h : r.guestyId = key
    · simp [upsertListing, h]
    · simp [upsertListing, h]
      exact Or.inr ih

/-- C2 (counterexample): `syncOneListing(hostId = 1, vendorListingId =
"req")` against a vendor payload reporting `_id = "other"` upserts under
key `"other"`, not under the requested `"req"`: the written row and the
only row of the resulting table carry `guestyId = "other"`. -/
theorem syncOne_payload_id_counterexample :
    (syncListingByGuestyId [] 1 "req" { _id := some "other" }).1.guestyId = "other"
    ∧ ((syncListingByGuestyId [] 1 "req" { _id := some "other" }).2.map
        (fun r => r.guestyId)) = ["other"]
    ∧ ("other" : String) ≠ "req" := by decide

/-- C2 (amended): the upsert key of `syncOneListing` is the identifier
reported by the vendor payload when the payload carries one, and falls
back to the identifier used in the request only when the payload reports
none; the written row carries that key and is present in the resulting
table. -/
theorem syncOne_upsert_key (db : List ListingRec) (hostId : Nat) (vid : String)
    (data : GuestyListing) :
    (syncListingByGuestyId db hostId vid data).1.guestyId = syncOneKey data vid
    ∧ (syncListingByGuestyId db hostId vid data).1 ∈
        (syncListingByGuestyId db hostId vid data).2
    ∧ (∀ pid, extractGuestyId data = some pid → syncOneKey data vid = pid)
    ∧ (extractGuestyId data = none → syncOneKey data vid = vid) := by
  refine ⟨upsertListing_result_key db (syncOneKey data vid) _ _ rfl,
    upsertListing_result_mem db (syncOneKey data vid) _ _, ?_, ?_⟩
  · intro pid hpid
    simp [syncOneKey, hpid]
  · intro hnone
    simp [syncOneKey, hnone]

/-- C2 (witness): with payload id `"payload"` and request id `"req2"`
the written row is keyed `"payload"`. -/
theorem syncOne_upsert_key_witness :
    (syncListingByGuestyId [] 2 "req2" { id := some "payload" }).1.guestyId =
      syncOneKey { id := some "payload" } "req2"
    ∧ syncOneKey { id := some "payload" } "req2" = "payload" :=
  ⟨(syncOne_upsert_key [] 2 "req2" { id := some "payload" }).1,
    (syncOne_upsert_key [] 2 "req2" { id := some "payload" }).2.2.1 "payload" rfl⟩

@[simp] theorem pagesTruthy_none : pagesTruthy none = false := rfl

@[simp] theorem pagesTruthy_some (p : Nat) : pagesTruthy (some p) = !decide (p = 0) := by
  simp [pagesTruthy]

/-- The number of listings a page contributes to `syncedListings` is the
number of raw records whose extracted vendor identifier is truthy. -/
theorem processPage_length (hostId : Nat) (l : List GuestyListing) :
    ∀ db : List ListingRec,
      (processPage hostId l db).1.length =
        l.countP (fun r => strTruthy (extractGuestyId r)) := by
  induction l with
  | nil =>
    intro db
    simp [processPage]
  | cons raw rest ih =>
    intro db
    by_cases h : strTruthy (extractGuestyId raw)
    · simp [processPage, h, List.countP_cons, ih]
    · simp [processPage, h, List.countP_cons, ih]

/-- C7 (confirmed): processing a page of ten raw records of which
exactly one lacks a (truthy) vendor identifier performs exactly nine
upserts — the malformed record is skipped and the loop runs to
completion (the embedded loop is total, so no per-record failure can
abort the page). -/
theorem processPage_skips_untruthy (hostId : Nat) (l : List GuestyListing)
    (db : List ListingRec) (hlen : l.length = 10)
    (hbad : (l.countP fun r => !strTruthy (extractGuestyId r)) = 1) :
    (processPage hostId l db).1.length = 9 := by
  have hsplit := List.length_eq_countP_add_countP
    (p := fun r => strTruthy (extractGuestyId r)) l
  have hconv : (l.countP fun r => (¬strTruthy (extractGuestyId r) : Bool)) =
      (l.countP fun r => !strTruthy (extractGuestyId r)) := by
    apply List.countP_congr
    intro a _
    cases h : strTruthy (extractGuestyId a) <;> simp [h]
  rw [hconv] at hsplit
  rw [processPage_length]
  omega

/-- C7 (witness): a concrete page of ten records, nine with `_id`, one
with none, yields nine synced listings. -/
theorem processPage_skips_untruthy_witness :
    (processPage 1
      ([{ _id := some "a1" }, { _id := some "a2" }, { _id := some "a3" },
        { _id := some "a4" }, { _id := some "a5" }, {},
        { _id := some "a6" }, { _id := some "a7" }, { _id := some "a8" },
        { _id := some "a9" }] : List GuestyListing) []).1.length = 9 :=
  processPage_skips_untruthy 1
    ([{ _id := some "a1" }, { _id := some "a2" }, { _id := some "a3" },
      { _id := some "a4" }, { _id := some "a5" }, {},
      { _id := some "a6" }, { _id := some "a7" }, { _id := some "a8" },
      { _id := some "a9" }] : List GuestyListing) [] (by decide) (by decide)

/-- One unfolding of the pagination loop. -/
theorem syncAllLoop_step (fetch : Nat → GuestyListResponse) (hostId limit fuel page : Nat)
    (db : List ListingRec) :
    syncAllLoop fetch hostId limit (fuel + 1) page db =
      (let resp := fetch page
       let rawListings := (jsOr resp.results resp.data).getD []
       if rawListings.length = 0 then some ([], db, 1)
       else
         let step := processPage hostId rawListings db
         if pagesTruthy resp.pages && decide (page ≥ resp.pages.getD 0) then
           some (step.1, step.2, 1)
         else if !pagesTruthy resp.pages && decide (rawListings.length < limit) then
           some (step.1, step.2, 1)
         else
           match syncAllLoop fetch hostId limit fuel (page + 1) step.2 with
           | none => none
           | some rest => some (step.1 ++ rest.1, rest.2.1, rest.2.2 + 1)) := rfl

/-- C5 (confirmed): against a vendor collection whose pages 1, 2, 3 hold
50, 50 and 13 records (every record with a truthy identifier) and whose
page count is either unreported or truthfully 3, `syncAllListingsForHost`
performs exactly 3 vendor page requests and returns exactly 113 synced
listings, in vendor page order, for any sufficient loop fuel. -/
theorem syncAll_three_pages (fetch : Nat → GuestyListResponse) (hostId : Nat)
    (db : List ListingRec) (l1 l2 l3 : List GuestyListing)
    (h1 : (fetch 1).results = some l1) (h2 : (fetch 2).results = some l2)
    (h3 : (fetch 3).results = some l3)
    (hl1 : l1.length = 50) (hl2 : l2.length = 50) (hl3 : l3.length = 13)
    (ht1 : ∀ r ∈ l1, strTruthy (extractGuestyId r) = true)
    (ht2 : ∀ r ∈ l2, strTruthy (extractGuestyId r) = true)
    (ht3 : ∀ r ∈ l3, strTruthy (extractGuestyId r) = true)
    (hp1 : (fetch 1).pages = none ∨ (fetch 1).pages = some 3)
    (hp2 : (fetch 2).pages = none ∨ (fetch 2).pages = some 3)
    (hp3 : (fetch 3).pages = none ∨ (fetch 3).pages = some 3)
    (fuel : Nat) :
    syncAllListingsForHost fetch hostId (fuel + 3) db =
      some ((processPage hostId l1 db).1 ++
            ((processPage hostId l2 (processPage hostId l1 db).2).1 ++
             (processPage hostId l3
               (processPage hostId l2 (processPage hostId l1 db).2).2).1),
            (processPage hostId l3
              (processPage hostId l2 (processPage hostId l1 db).2).2).2, 3)
    ∧ ((processPage hostId l1 db).1 ++
        ((processPage hostId l2 (processPage hostId l1 db).2).1 ++
         (processPage hostId l3
           (processPage hostId l2 (processPage hostId l1 db).2).2).1)).length = 113 := by
  have step3 : syncAllLoop fetch hostId 50 (fuel + 1) 3
      (processPage hostId l2 (processPage hostId l1 db).2).2 =
      some ((processPage hostId l3
              (processPage hostId l2 (processPage hostId l1 db).2).2).1,
            (processPage hostId l3
              (processPage hostId l2 (processPage hostId l1 db).2).2).2, 1) := by
    rw [syncAllLoop_step]
    rcases hp3 with hp | hp
    · simp [h3, hp, hl3]
    · simp [h3, hp, hl3]
  have step2 : syncAllLoop fetch hostId 50 (fuel + 1 + 1) 2
      (processPage hostId l1 db).2 =
      some ((processPage hostId l2 (processPage hostId l1 db).2).1 ++
            (processPage hostId l3
              (processPage hostId l2 (processPage hostId l1 db).2).2).1,
            (processPage hostId l3
              (processPage hostId l2 (processPage hostId l1 db).2).2).2, 2) := by
    rw [syncAllLoop_step]
    rcases hp2 with hp | hp
    · simp [h2, hp, hl2, step3]
    · simp [h2, hp, hl2, step3]
  have step1 : syncAllLoop fetch hostId 50 (fuel + 1 + 1 + 1) 1 db =
      some ((processPage hostId l1 db).1 ++
            ((processPage hostId l2 (processPage hostId l1 db).2).1 ++
             (processPage hostId l3
               (processPage hostId l2 (processPage hostId l1 db).2).2).1),
            (processPage hostId l3
              (processPage hostId l2 (processPage hostId l1 db).2).2).2, 3) := by
    rw [syncAllLoop_step]
    rcases hp1 with hp | hp
    · simp [h1, hp, hl1, step2]
    · simp [h1, hp, hl1, step2]
  have len1 : (processPage hostId l1 db).1.length = 50 := by
    rw [processPage_length, List.countP_eq_length.mpr ht1, hl1]
  have len2 : (processPage hostId l2 (processPage hostId l1 db).2).1.length = 50 := by
    rw [processPage_length, List.countP_eq_length.mpr ht2, hl2]
  have len3 : (processPage hostId l3
      (processPage hostId l2 (processPage hostId l1 db).2).2).1.length = 13 := by
    rw [processPage_length, List.countP_eq_length.mpr ht3, hl3]
  exact ⟨step1, by simp [List.length_append, len1, len2, len3]⟩

/-- A fixed full-page vendor payload for the pagination witness. -/
def pageFull : GuestyListing := { _id := some "x" }

/-- A vendor listing collection with pages of sizes 50, 50 and 13 and no
reported page count. -/
def fetch3Pages : Nat → GuestyListResponse := fun page =>
  if page = 1 then { results := some (List.replicate 50 pageFull) }
  else if page = 2 then { results := some (List.replicate 50 pageFull) }
  else if page = 3 then { results := some (List.replicate 13 pageFull) }
  else { results := some [] }

/-- C5 (witness): the concrete three-page collection yields exactly
3 requests and 113 synced listings. -/
theorem syncAll_three_pages_witness :
    syncAllListingsForHost fetch3Pages 1 3 [] =
      some ((processPage 1 (List.replicate 50 pageFull) []).1 ++
            ((processPage 1 (List.replicate 50 pageFull)
               (processPage 1 (List.replicate 50 pageFull) []).2).1 ++
             (processPage 1 (List.replicate 13 pageFull)
               (processPage 1 (List.replicate 50 pageFull)
                 (processPage 1 (List.replicate 50 pageFull) []).2).2).1),
            (processPage 1 (List.replicate 13 pageFull)
              (processPage 1 (List.replicate 50 pageFull)
                (processPage 1 (List.replicate 50 pageFull) []).2).2).2, 3)
    ∧ ((processPage 1 (List.replicate 50 pageFull) []).1 ++
        ((processPage 1 (List.replicate 50 pageFull)
           (processPage 1 (List.replicate 50 pageFull) []).2).1 ++
         (processPage 1 (List.replicate 13 pageFull)
           (processPage 1 (List.replicate 50 pageFull)
             (processPage 1 (List.replicate 50 pageFull) []).2).2).1)).length = 113 :=
  syncAll_three_pages fetch3Pages 1 [] (List.replicate 50 pageFull)
    (List.replicate 50 pageFull) (List.replicate 13 pageFull)
    rfl rfl rfl (by simp) (by simp) (by simp)
    (by intro r hr; rw [List.eq_of_mem_replicate hr]; rfl)
    (by intro r hr; rw [List.eq_of_mem_replicate hr]; rfl)
    (by intro r hr; rw [List.eq_of_mem_replicate hr]; rfl)
    (Or.inl rfl) (Or.inl rfl) (Or.inl rfl) 0

/-! ## Theorems: Calendar Synchronizer -/

/-- The day an upsert returns carries the day's price. -/
theorem upsertCalendarDay_price (db : List CalendarDayRec) (day : CalendarDayRec) :
    (upsertCalendarDay db day).1.price = day.price := by
  induction db with
  | nil => rfl
  | cons r rest ih =>
    by_cases h : r.listingId = day.listingId && r.date = day.date
    · simp [upsertCalendarDay, h]
    · simpa [upsertCalendarDay, h] using ih

/-- Syncing a one-day availability response stores the one processed
day. -/
theorem syncCalendarDays_single (listingId : Nat) (lbp : Option ℚ)
    (parseDay : String → Int) (raw : GuestyAvailabilityDay)
    (db : List CalendarDayRec) (day : CalendarDayRec)
    (h : processAvailabilityDay listingId lbp parseDay raw = some day) :
    (syncCalendarDays listingId lbp parseDay [raw] db).1 =
      [(upsertCalendarDay db day).1] := by
  simp [syncCalendarDays, h]

/-- C6 (confirmed): a vendor availability day carrying a date but none
of `price`, `nightlyPrice`, `basePrice`, `defaultDailyPrice` is stored
with a price exactly equal to the listing's own base price (an exact
rational, no float rounding in the model's decimal arithmetic), and
exactly zero when the listing base price is also absent. -/
theorem calendar_price_fallback_base (listingId : Nat) (lbp : Option ℚ)
    (parseDay : String → Int) (raw : GuestyAvailabilityDay)
    (db : List CalendarDayRec) (d : String)
    (hdate : raw.date = some d) (hne : d ≠ "")
    (hp : raw.price = none) (hnp : raw.nightlyPrice = none)
    (hbp : raw.basePrice = none) (hdp : raw.defaultDailyPrice = none) :
    ∃ rec, (syncCalendarDays listingId lbp parseDay [raw] db).1 = [rec]
      ∧ rec.price = lbp.getD 0 := by
  have hprice : dayPriceDecimal raw lbp = lbp.getD 0 := by
    simp [dayPriceDecimal, resolveDayPrice, hp, hnp, hbp, hdp]
  have hproc : processAvailabilityDay listingId lbp parseDay raw =
      some { listingId := listingId, date := parseDay d,
             available := raw.available.getD true,
             price := dayPriceDecimal raw lbp,
             minStay := (jsOr raw.minimumStay (jsOr raw.minNights raw.minStay)).getD 1 } := by
    simp [processAvailabilityDay, hdate, hne]
  refine ⟨_, syncCalendarDays_single listingId lbp parseDay raw db _ hproc, ?_⟩
  rw [upsertCalendarDay_price, hprice]

/-- C6 (witness): a day payload with no price fields against a listing
priced 120.00 stores exactly 120. -/
theorem calendar_price_fallback_base_witness :
    ∃ rec,
      (syncCalendarDays 7 (some 120) (fun _ => 0)
        [{ date := some "2026-01-01" }] []).1 = [rec]
      ∧ rec.price = (Option.some (120 : ℚ)).getD 0 :=
  calendar_price_fallback_base 7 (some 120) (fun _ => 0)
    { date := some "2026-01-01" } [] "2026-01-01" rfl (by decide) rfl rfl rfl rfl

/-- C10 (confirmed): a vendor availability day whose resolved price is
not a finite number (for example `NaN` from a malformed payload) is
stored with price exactly 0 — the loop neither fails nor stores a
non-numeric value. -/
theorem calendar_price_nonfinite_zero (listingId : Nat) (lbp : Option ℚ)
    (parseDay : String → Int) (raw : GuestyAvailabilityDay)
    (db : List CalendarDayRec) (d : String)
    (hdate : raw.date = some d) (hne : d ≠ "")
    (hfin : (resolveDayPrice raw lbp).isFinite = false) :
    ∃ rec, (syncCalendarDays listingId lbp parseDay [raw] db).1 = [rec]
      ∧ rec.price = 0 := by
  have hprice : dayPriceDecimal raw lbp = 0 := by
    cases hres : resolveDayPrice raw lbp with
    | fin q =>
      rw [hres] at hfin
      simp [JNum.isFinite] at hfin
    | nan => simp [dayPriceDecimal, hres]
    | inf => simp [dayPriceDecimal, hres]
    | ninf => simp [dayPriceDecimal, hres]
  have hproc : processAvailabilityDay listingId lbp parseDay raw =
      some { listingId := listingId, date := parseDay d,
             available := raw.available.getD true,
             price := dayPriceDecimal raw lbp,
             minStay := (jsOr raw.minimumStay (jsOr raw.minNights raw.minStay)).getD 1 } := by
    simp [processAvailabilityDay, hdate, hne]
  refine ⟨_, syncCalendarDays_single listingId lbp parseDay raw db _ hproc, ?_⟩
  rw [upsertCalendarDay_price, hprice]

/-- C10 (witness): a day payload reporting `NaN` as its price is stored
with price 0. -/
theorem calendar_price_nonfinite_zero_witness :
    ∃ rec,
      (syncCalendarDays 7 (some 99) (fun _ => 0)
        [{ date := some "2026-01-02", price := some JNum.nan }] []).1 = [rec]
      ∧ rec.price = 0 :=
  calendar_price_nonfinite_zero 7 (some 99) (fun _ => 0)
    { date := some "2026-01-02", price := some JNum.nan } [] "2026-01-02"
    rfl (by decide) rfl

/-! ## Theorems: inbound webhook -/

/-- C8 (counterexample): a `reservation.updated` event whose account
identifier resolves to no host (empty host table) but which references a
listing present locally still enqueues one `sync-calendar` job — the
reservation branch never consults the account identifier — refuting the
claim that an unresolvable account identifier always yields zero
enqueued jobs. -/
theorem webhook_reservation_counterexample :
    resolveHostIdFromPayload []
      { event := some "reservation.updated", accountId := some "acct-x",
        listingId := some "L1" } = none
    ∧ handleGuestyWebhook [] [("L1", 7)]
        { event := some "reservation.updated", accountId := some "acct-x",
          listingId := some "L1" } =
      (200, [SyncJob.syncCalendar 7]) := by decide

/-- C8 (amended): the webhook handler always responds with HTTP 200 and
never propagates an error; a listing-changed event whose vendor account
identifier cannot be resolved to a host enqueues nothing; an event of an
unrecognized kind enqueues nothing; and no request ever enqueues more
than one job.  (Reservation-changed events do not consult the account
identifier: they enqueue exactly when the referenced listing resolves
locally.) -/
theorem webhook_always_ok (hosts : List Host) (listingTable : List (String × Nat))
    (body : GuestyWebhookBody) :
    (handleGuestyWebhook hosts listingTable body).1 = 200
    ∧ (((jsOr body.event body.type).getD "") ∈ LISTING_EVENTS →
        resolveHostIdFromPayload hosts body = none →
        (handleGuestyWebhook hosts listingTable body).2 = [])
    ∧ (((jsOr body.event body.type).getD "") ∉ LISTING_EVENTS →
        ((jsOr body.event body.type).getD "") ∉ RESERVATION_EVENTS →
        (handleGuestyWebhook hosts listingTable body).2 = [])
    ∧ (handleGuestyWebhook hosts listingTable body).2.length ≤ 1 := by
  refine ⟨rfl, ?_, ?_, ?_⟩
  · intro hc hr
    simp [handleGuestyWebhook, hc, hr]
  · intro hc1 hc2
    simp [handleGuestyWebhook, hc1, hc2]
  · show (let jobs := _; ((200, jobs) : Nat × List SyncJob)).2.length ≤ 1
    simp only [handleGuestyWebhook]
    split
    · split
      · simp
      · simp
    · split
      · split
        · split
          · simp
          · simp
        · simp
      · simp

/-- C8 (witness): a listing-changed event with an unresolvable account
identifier enqueues no job. -/
theorem webhook_always_ok_witness :
    (handleGuestyWebhook [] []
      { event := some "listing.updated", accountId := some "nope",
        listingId := some "L9" }).2 = [] :=
  (webhook_always_ok [] []
    { event := some "listing.updated", accountId := some "nope",
      listingId := some "L9" }).2.1 (by decide) (by decide)
